import Mathlib

/-!
A verification development for the kafka-backup demo harness
(`python/backup-restore-py/demo_backup_restore.py`) and the benchmark
report formatter (`benchmarks/tools/generate_report.py`).

The Python code is shallowly embedded: each Python function of interest
becomes a Lean definition over explicit data.  Wall-clock time is modelled
as integer seconds with exact arithmetic, the two-decimal `amount` values
as integers (cents), the report formatter's metric values as rationals,
and external effects (delivery acknowledgements, subprocess results,
polled records) as explicit inputs.
-/

namespace Demo

/-- One order message, as built by `generate_test_messages`:
`{'order_id': …, 'customer_id': …, 'product': …, 'amount': …, 'timestamp': …}`.
`amount` is a fixed two-decimal quantity, modelled in cents as an integer. -/
structure Msg where
  order_id : String
  customer_id : String
  product : String
  amount : Int
  timestamp : String
deriving DecidableEq

/-- The sort order used by `sorted(…, key=lambda x: x['order_id'])`.
Python compares strings lexicographically by code point, which is exactly
the lexicographic order on the character lists (for `String`s this agrees
with `≤` by `String.le_iff_toList_le`). -/
def keyLe (a b : Msg) : Prop := a.order_id.toList ≤ b.order_id.toList

instance : DecidableRel keyLe := fun a b =>
  inferInstanceAs (Decidable (a.order_id.toList ≤ b.order_id.toList))

instance : IsTotal Msg keyLe := ⟨fun a b => le_total a.order_id.toList b.order_id.toList⟩

instance : IsTrans Msg keyLe := ⟨fun _ _ _ h₁ h₂ => le_trans h₁ h₂⟩

/-- Embeds `sorted(msgs, key=lambda x: x['order_id'])`.  Python's `sorted` is a
stable sort by the key; a stable sort is extensionally unique, and
insertion sort with the `≤`-test is stable, so this is the same function. -/
def sortByKey (l : List Msg) : List Msg := List.insertionSort keyLe l

/-- The per-pair comparison loop of `compare_messages` (lines 220–227):
zip the two sorted lists and record a mismatch for each pair whose
`order_id`s differ, or else whose `amount`s differ.  Each mismatch is
recorded as (expected-side key, field name). -/
def pairMismatches : List Msg → List Msg → List (String × String)
  | o :: os, r :: rs =>
    (if o.order_id ≠ r.order_id then [(o.order_id, "order_id")]
     else if o.amount ≠ r.amount then [(o.order_id, "amount")]
     else []) ++ pairMismatches os rs
  | _, _ => []

/-- The spec's `ComparisonReport`: `countMatch` is the length check,
`mismatches` the accumulated mismatch entries, `verdict` the boolean the
Python function returns. -/
structure ComparisonReport where
  countMatch : Bool
  mismatches : List (String × String)
  verdict : Bool
deriving DecidableEq

/-- Embeds `compare_messages(original, restored)` (lines 209–234): short-circuit
on a length mismatch, otherwise sort both sides by `order_id`, pair them
up and count mismatches; the verdict is `mismatches == 0`. -/
def compare_messages (original restored : List Msg) : ComparisonReport :=
  if original.length ≠ restored.length then
    { countMatch := false, mismatches := [], verdict := false }
  else
    let ms := pairMismatches (sortByKey original) (sortByKey restored)
    { countMatch := true, mismatches := ms, verdict := ms.isEmpty }

/-- Sample message 1 (concrete instance for witnesses). -/
def msgA : Msg :=
  { order_id := "PY-ORD-0001", customer_id := "CUST-007", product := "Widget"
    amount := 12550, timestamp := "2024-01-01T00:00:00Z" }

/-- Sample message 2 (concrete instance for witnesses). -/
def msgB : Msg :=
  { order_id := "PY-ORD-0002", customer_id := "CUST-042", product := "Gadget"
    amount := 99917, timestamp := "2024-01-01T00:00:00Z" }

/-! ### The dataset generator (`generate_test_messages`, lines 192–206) -/

/-- The character printed for one decimal digit. -/
def decDigitChar (d : Nat) : Char := Char.ofNat (48 + d)

/-- The character list Python's `%d` prints for a natural number:
decimal digits, most significant first; `0` prints as `"0"`. -/
def decReprList (n : Nat) : List Char :=
  if n = 0 then ['0'] else ((Nat.digits 10 n).reverse.map decDigitChar)

/-- Python's `f'{i:04d}'`: the decimal digits, zero-padded on the left to
width 4 (numbers of five or more digits are printed unpadded). -/
def pad4List (n : Nat) : List Char :=
  List.replicate (4 - (decReprList n).length) '0' ++ decReprList n

/-- The text `f'{i:04d}'` as a string. -/
def pad4 (n : Nat) : String := String.mk (pad4List n)

/-- The `order_id` of the `i`-th generated message: `f'PY-ORD-{i:04d}'`. -/
def orderKey (i : Nat) : String := "PY-ORD-" ++ pad4 i

/-- Embeds `generate_test_messages(count)`.  The ambient random source and clock
are explicit inputs: `rand i` is the `(customer_id, product, amount)`
drawn at loop index `i`, `ts` the formatted current time.  Python's
`for i in range(1, count + 1)` visits `1 … count`, which is
`List.range' 1 count.toNat` (empty when `count ≤ 0`; the function performs
no validation of `count`). -/
def generate_test_messages (count : Int) (rand : Nat → String × String × Int)
    (ts : String) : List Msg :=
  (List.range' 1 count.toNat).map fun i =>
    { order_id := orderKey i
      customer_id := (rand i).1
      product := (rand i).2.1
      amount := (rand i).2.2
      timestamp := ts }

/-! ### The drain loop (`consume_messages`, lines 91–125) -/

/-- One outcome of `consumer.poll(1.0)`:
`noMsg` – the poll returned `None`;
`eofMarker` – `msg.error()` is the benign `_PARTITION_EOF` marker;
`hardError` – any other consumer error;
`record d` – a record whose JSON payload decoded to `some m`, or `none`
when `json.loads` raised `JSONDecodeError`. -/
inductive PollOutcome
  | noMsg
  | eofMarker
  | hardError
  | record (decoded : Option Msg)
deriving DecidableEq

/-- The state of the `consume_messages` while-loop.  `elapsed` models
`time.time() - start_time`, in whole seconds (the wall clock is embedded
with exact integer arithmetic); `done` records that the loop has
exited (by the idle-threshold while-condition or the timeout break). -/
structure DrainState where
  messages : List Msg
  empty_polls : Nat
  elapsed : Int
  done : Bool
deriving DecidableEq

/-- The loop state on entry: no messages, idle counter zero. -/
def initDrain : DrainState :=
  { messages := [], empty_polls := 0, elapsed := 0, done := false }

/-- One iteration of the loop, fed the poll's outcome paired with the
wall-clock duration that iteration consumed.  The order of the checks is
the source's: the `while empty_polls < max_empty_polls` condition first,
then the `> timeout` break, then the poll and its four-way dispatch.
A hard error only logs (`print_error`) and `continue`s: the idle counter
is left unchanged.  A record resets the idle counter to zero before the
payload is decoded, so the reset happens whether or not decoding
succeeds; an undecodable record is discarded. -/
def drainStep (timeout : Int) (max_empty_polls : Nat) (s : DrainState)
    (p : PollOutcome × Int) : DrainState :=
  if s.done then s
  else if max_empty_polls ≤ s.empty_polls then { s with done := true }
  else if timeout < s.elapsed then { s with done := true }
  else
    match p.1 with
    | .noMsg =>
        { s with empty_polls := s.empty_polls + 1, elapsed := s.elapsed + p.2 }
    | .eofMarker =>
        { s with empty_polls := s.empty_polls + 1, elapsed := s.elapsed + p.2 }
    | .hardError =>
        { s with elapsed := s.elapsed + p.2 }
    | .record (some m) =>
        { s with empty_polls := 0, messages := s.messages ++ [m],
                 elapsed := s.elapsed + p.2 }
    | .record none =>
        { s with empty_polls := 0, elapsed := s.elapsed + p.2 }

/-- The whole drain loop over a trace of poll outcomes. -/
def drainRun (timeout : Int) (max_empty_polls : Nat)
    (trace : List (PollOutcome × Int)) : DrainState :=
  trace.foldl (drainStep timeout max_empty_polls) initDrain

/-- Embeds `consume_messages(consumer, timeout)`: the source hardcodes
`max_empty_polls = 10`; the returned value is the accumulated list. -/
def consume_messages (trace : List (PollOutcome × Int)) (timeout : Int) : List Msg :=
  (drainRun timeout 10 trace).messages

/-- The loop's exit condition, as checked at the top of each iteration:
already exited, idle counter at the threshold, or overall timeout
exceeded. -/
def exitCond (timeout : Int) (max_empty_polls : Nat) (s : DrainState) : Prop :=
  s.done = true ∨ max_empty_polls ≤ s.empty_polls ∨ timeout < s.elapsed

instance : ∀ t m s, Decidable (exitCond t m s) := fun t m s =>
  inferInstanceAs (Decidable (s.done = true ∨ m ≤ s.empty_polls ∨ t < s.elapsed))

/-! ### External commands and the pipeline (`main`, lines 237–364) -/

/-- What one `subprocess.run` invocation did: its exit code, and whether
the call raised (`TimeoutExpired` or any other exception). -/
structure CmdResult where
  returncode : Int
  raisedException : Bool
deriving DecidableEq

/-- Embeds `run_kafka_backup_command` (lines 128–161): `True` iff the process
ran without an exception and exited 0. -/
def run_kafka_backup_command (res : CmdResult) : Bool :=
  if res.raisedException then false else res.returncode == 0

/-- Embeds `run_kafka_cli_command` (lines 164–189): `True` iff the process ran
without an exception and exited 0. -/
def run_kafka_cli_command (res : CmdResult) : Bool :=
  if res.raisedException then false else res.returncode == 0

/-- Embeds `produce_messages` (lines 67–88): the delivery callback counts the
acknowledgements that arrived before `flush(timeout=30)` returned; the
function prints the count and returns `None` — it exposes no
success/failure signal to its caller. -/
def produce_messages (deliveries : List Bool) : Nat :=
  deliveries.countP id

/-- The external world of one pipeline run: per-record delivery
acknowledgements, the four subprocess results, and the drain trace. -/
structure PipelineEnv where
  deliveries : List Bool
  backupRes : CmdResult
  deleteRes : CmdResult
  createRes : CmdResult
  restoreRes : CmdResult
  drainTrace : List (PollOutcome × Int)

/-- Which steps of `main` ran, and the process exit code. -/
structure RunResult where
  delivered : Nat
  ranBackup : Bool
  ranDelete : Bool
  ranCreate : Bool
  ranRestore : Bool
  ranDrain : Bool
  ranCompare : Bool
  exitCode : Nat
deriving DecidableEq

/-- The step sequencing of `main` (lines 237–364) after the messages are
generated.  The produce step's delivered count is not checked.  The
results of the two `run_kafka_cli_command` calls (topic delete, topic
recreate) are discarded by the source, so both lets are unused.  Backup
and restore failures exit 1; otherwise the comparison verdict decides
the exit code. -/
def main_run (original : List Msg) (env : PipelineEnv) : RunResult :=
  let delivered := produce_messages env.deliveries
  if !(run_kafka_backup_command env.backupRes) then
    { delivered := delivered, ranBackup := true, ranDelete := false,
      ranCreate := false, ranRestore := false, ranDrain := false,
      ranCompare := false, exitCode := 1 }
  else
    let _deleteOk := run_kafka_cli_command env.deleteRes
    let _createOk := run_kafka_cli_command env.createRes
    if !(run_kafka_backup_command env.restoreRes) then
      { delivered := delivered, ranBackup := true, ranDelete := true,
        ranCreate := true, ranRestore := true, ranDrain := false,
        ranCompare := false, exitCode := 1 }
    else
      let restored := consume_messages env.drainTrace 30
      let ok := (compare_messages original restored).verdict
      { delivered := delivered, ranBackup := true, ranDelete := true,
        ranCreate := true, ranRestore := true, ranDrain := true,
        ranCompare := true, exitCode := if ok then 0 else 1 }

/-! ### The benchmark report formatter (`generate_report.py`) -/

/-- Embeds `check_target(value, target, higher_is_better)` (lines 35–40). -/
def check_target (value target : ℚ) (higher_is_better : Bool) : String :=
  if higher_is_better then
    if target ≤ value then "✓ PASS" else "✗ FAIL"
  else
    if value ≤ target then "✓ PASS" else "✗ FAIL"

/-- The three metric values the summary table of `generate_report`
reads: `throughput.backup_mbps`, `compression.zstd.ratio` and
`latency.checkpoint_p99_ms`. -/
structure SummaryInput where
  backup_mbps : ℚ
  zstd_ratio : ℚ
  checkpoint_p99_ms : ℚ

/-- The status cell of the summary's throughput row (line 66). -/
def throughput_status (r : SummaryInput) : String :=
  check_target r.backup_mbps 100 true

/-- The status cell of the summary's compression row (line 73). -/
def compression_status (r : SummaryInput) : String :=
  check_target r.zstd_ratio 3 true

/-- The status cell of the summary's checkpoint-latency row (line 79). -/
def latency_status (r : SummaryInput) : String :=
  check_target r.checkpoint_p99_ms 100 false

/-! ### Auxiliary definitions used by the theorems -/

/-- The part of a message the comparator actually inspects: its key and
its amount. -/
def keyAmount (m : Msg) : String × Int := (m.order_id, m.amount)

/-- Strict key order on the comparator's projection (used to express
that a sorted list with pairwise-distinct keys is strictly sorted). -/
def keyAmountLt (x y : String × Int) : Prop := x.1.toList < y.1.toList

/-- Reads a digit character back to its value. -/
def charVal (c : Char) : Nat := c.toNat - 48

/-- Reads the number back out of a printed digit string (most significant
digit first, as printed); a left inverse of `pad4List`. -/
def parseDigits (l : List Char) : Nat :=
  Nat.ofDigits 10 ((l.map charVal).reverse)

/-- A message that duplicates `msgA`'s key with a different amount. -/
def msgC : Msg :=
  { order_id := "PY-ORD-0001", customer_id := "CUST-011", product := "Device"
    amount := 222, timestamp := "2024-01-01T00:00:00Z" }

/-- A subprocess result for a clean exit. -/
def cmdOk : CmdResult := { returncode := 0, raisedException := false }

/-- A subprocess result for an exit with code 1. -/
def cmdFail : CmdResult := { returncode := 1, raisedException := false }

/-- A drain trace that yields `msgA` and `msgB` and then goes idle. -/
def drainBoth : List (PollOutcome × Int) :=
  [(PollOutcome.record (some msgA), 1), (PollOutcome.record (some msgB), 1)] ++
    List.replicate 10 (PollOutcome.noMsg, 1)

/-- The environment of the delivery-shortfall run: two records published,
only one acknowledged before the flush deadline, every external tool
succeeding, the drain returning both records. -/
def shortfallEnv : PipelineEnv :=
  { deliveries := [true, false]
    backupRes := cmdOk, deleteRes := cmdOk, createRes := cmdOk
    restoreRes := cmdOk, drainTrace := drainBoth }

/-- The environment of the topic-delete-failure run: both deliveries
acknowledged, the delete sub-command exiting 1, everything else
succeeding. -/
def deleteFailEnv : PipelineEnv :=
  { deliveries := [true, true]
    backupRes := cmdOk, deleteRes := cmdFail, createRes := cmdOk
    restoreRes := cmdOk, drainTrace := drainBoth }

/-- A fixed stand-in for the generator's random draws. -/
def randFixed : Nat → String × String × Int := fun _ => ("CUST-001", "Widget", 50000)

/-- A mid-drain state: nine consecutive idle polls so far, one kept
message, five seconds on the clock. -/
def drainState9 : DrainState :=
  { messages := [msgA], empty_polls := 9, elapsed := 5, done := false }

/-! ## Shared lemmas about the drain loop -/

/-- A step taken after the loop has exited does nothing. -/
theorem drainStep_of_done {timeout : Int} {maxE : Nat} {s : DrainState}
    (h : s.done = true) (p : PollOutcome × Int) :
    drainStep timeout maxE s p = s := by
  simp [drainStep, h]

/-- Once the loop has exited, the rest of the trace changes nothing. -/
theorem drainFold_of_done {timeout : Int} {maxE : Nat} {s : DrainState}
    (h : s.done = true) :
    ∀ trace : List (PollOutcome × Int),
      trace.foldl (drainStep timeout maxE) s = s
  | [] => rfl
  | p :: tr => by
      rw [List.foldl_cons, drainStep_of_done h, drainFold_of_done h tr]

/-- Over a trace made only of hard errors and undecodable records the
idle counter stays at zero, no message is kept, and — when the idle
threshold is positive — the loop can only have exited through the
overall timeout. -/
theorem drainFold_idle_frozen (timeout : Int) (maxE : Nat) (hm : 0 < maxE)
    (trace : List (PollOutcome × Int)) :
    (∀ p ∈ trace, p.1 = PollOutcome.hardError ∨ p.1 = PollOutcome.record none) →
    ∀ s : DrainState, s.empty_polls = 0 → s.messages = [] →
      (s.done = true → timeout < s.elapsed) →
      ((trace.foldl (drainStep timeout maxE) s).empty_polls = 0 ∧
       (trace.foldl (drainStep timeout maxE) s).messages = [] ∧
       ((trace.foldl (drainStep timeout maxE) s).done = true →
         timeout < (trace.foldl (drainStep timeout maxE) s).elapsed)) := by
  induction trace with
  | nil => intro _ s h0 hmsg hdone; exact ⟨h0, hmsg, hdone⟩
  | cons p tr ih =>
    intro hmem s h0 hmsg hdone
    have hp := hmem p (List.mem_cons_self p tr)
    have htr : ∀ q ∈ tr, q.1 = PollOutcome.hardError ∨ q.1 = PollOutcome.record none :=
      fun q hq => hmem q (List.mem_cons_of_mem p hq)
    rw [List.foldl_cons]
    by_cases hd : s.done = true
    · rw [drainStep_of_done hd]
      exact ih htr s h0 hmsg hdone
    · have hd' : s.done = false := by simpa using hd
      have hmax : ¬ (maxE ≤ s.empty_polls) := by omega
      by_cases ht : timeout < s.elapsed
      · have hstep : drainStep timeout maxE s p = { s with done := true } := by
          simp [drainStep, hd', hmax, ht]
        rw [hstep]
        exact ih htr _ h0 hmsg (fun _ => ht)
      · rcases hp with hp | hp
        · have hstep : drainStep timeout maxE s p =
              { s with elapsed := s.elapsed + p.2 } := by
            simp [drainStep, hd', hmax, ht, hp]
          rw [hstep]
          exact ih htr _ h0 hmsg (by intro hc; simp [hd'] at hc)
        · have hstep : drainStep timeout maxE s p =
              { s with empty_polls := 0, elapsed := s.elapsed + p.2 } := by
            simp [drainStep, hd', hmax, ht, hp]
          rw [hstep]
          exact ih htr _ rfl hmsg (by intro hc; simp [hd'] at hc)

/-- One step cannot push the clock past `timeout + pollInterval`: the
poll is only issued while the clock is at most `timeout`, and it takes at
most `pollInterval`. -/
theorem drainStep_elapsed_bound {timeout pollInterval : Int} {maxE : Nat}
    {s : DrainState} {p : PollOutcome × Int} (hdur : p.2 ≤ pollInterval)
    (hs : s.elapsed ≤ timeout + pollInterval) :
    (drainStep timeout maxE s p).elapsed ≤ timeout + pollInterval := by
  by_cases h1 : s.done = true
  · simpa [drainStep, h1] using hs
  · have h1' : s.done = false := by simpa using h1
    by_cases h2 : maxE ≤ s.empty_polls
    · simpa [drainStep, h1', h2] using hs
    · by_cases h3 : timeout < s.elapsed
      · simpa [drainStep, h1', h2, h3] using hs
      · have h3' : s.elapsed ≤ timeout := le_of_not_lt h3
        rcases p with ⟨o, d⟩
        have hd2 : d ≤ pollInterval := hdur
        cases o with
        | noMsg => simp only [drainStep, h1', h2, h3, if_false]; simp; omega
        | eofMarker => simp only [drainStep, h1', h2, h3, if_false]; simp; omega
        | hardError => simp only [drainStep, h1', h2, h3, if_false]; simp; omega
        | record r? =>
            cases r? with
            | none => simp only [drainStep, h1', h2, h3, if_false]; simp; omega
            | some m => simp only [drainStep, h1', h2, h3, if_false]; simp; omega

/-- The clock never passes `timeout + pollInterval` during the drain. -/
theorem drainFold_elapsed_bound (timeout pollInterval : Int) (maxE : Nat)
    (trace : List (PollOutcome × Int)) :
    (∀ p ∈ trace, p.2 ≤ pollInterval) → ∀ s : DrainState,
      s.elapsed ≤ timeout + pollInterval →
      (trace.foldl (drainStep timeout maxE) s).elapsed ≤ timeout + pollInterval := by
  induction trace with
  | nil => intro _ s hs; exact hs
  | cons p tr ih =>
      intro hmem s hs
      rw [List.foldl_cons]
      exact ih (fun q hq => hmem q (List.mem_cons_of_mem p hq)) _
        (drainStep_elapsed_bound (hmem p (List.mem_cons_self p tr)) hs)

/-- A step that leaves the loop unfinished was a real poll: the loop was
unfinished before it, and it advanced the clock by its duration. -/
theorem drainStep_not_done {timeout : Int} {maxE : Nat} {s : DrainState}
    {p : PollOutcome × Int} (h : (drainStep timeout maxE s p).done = false) :
    s.done = false ∧ (drainStep timeout maxE s p).elapsed = s.elapsed + p.2 := by
  by_cases h1 : s.done = true
  · rw [drainStep_of_done h1] at h
    rw [h1] at h
    exact Bool.noConfusion h
  · have h1' : s.done = false := by simpa using h1
    refine ⟨h1', ?_⟩
    by_cases h2 : maxE ≤ s.empty_polls
    · have hc : (drainStep timeout maxE s p).done = true := by
        simp [drainStep, h1', h2]
      rw [hc] at h
      exact Bool.noConfusion h
    · by_cases h3 : timeout < s.elapsed
      · have hc : (drainStep timeout maxE s p).done = true := by
          simp [drainStep, h1', h2, h3]
        rw [hc] at h
        exact Bool.noConfusion h
      · rcases p with ⟨o, d⟩
        cases o with
        | noMsg => simp [drainStep, h1', h2, h3]
        | eofMarker => simp [drainStep, h1', h2, h3]
        | hardError => simp [drainStep, h1', h2, h3]
        | record r? => cases r? <;> simp [drainStep, h1', h2, h3]

/-- If the loop never exited on a trace, every iteration was a real poll,
so the clock reads exactly the sum of the poll durations. -/
theorem drainFold_elapsed_of_not_done (timeout : Int) (maxE : Nat)
    (trace : List (PollOutcome × Int)) :
    ∀ s : DrainState,
      (trace.foldl (drainStep timeout maxE) s).done = false →
      (trace.foldl (drainStep timeout maxE) s).elapsed =
        s.elapsed + (trace.map (fun p => p.2)).sum := by
  induction trace with
  | nil => intro s _; simp
  | cons p tr ih =>
      intro s hfin
      rw [List.foldl_cons] at hfin ⊢
      have hsd : (drainStep timeout maxE s p).done = false := by
        by_cases hc : (drainStep timeout maxE s p).done = true
        · rw [drainFold_of_done hc] at hfin
          rw [hc] at hfin
          exact Bool.noConfusion hfin
        · simpa using hc
      have hes := (drainStep_not_done hsd).2
      rw [ih _ hfin, hes]
      simp only [List.map_cons, List.sum_cons]
      omega

/-- With `higher_is_better`, `check_target` marks PASS exactly at
`target ≤ value`. -/
theorem check_target_true_pass_iff (v t : ℚ) :
    check_target v t true = "✓ PASS" ↔ t ≤ v := by
  by_cases h : t ≤ v
  · simp [check_target, h]
  · simp only [check_target, if_true, if_neg h]
    exact iff_of_false (by decide) h

/-- With `higher_is_better = False`, `check_target` marks PASS exactly at
`value ≤ target`. -/
theorem check_target_false_pass_iff (v t : ℚ) :
    check_target v t false = "✓ PASS" ↔ v ≤ t := by
  by_cases h : v ≤ t
  · simp [check_target, h]
  · simp only [check_target, Bool.false_eq_true, if_false, if_neg h]
    exact iff_of_false (by decide) h

/-! ## Claim theorems -/

/-- C2: when the two record collections have different lengths,
`compare_messages` short-circuits: `countMatch = false`, an empty
mismatch list (no per-record inspection), and `verdict = false`. -/
theorem compare_messages_count_short_circuit (original restored : List Msg)
    (h : original.length ≠ restored.length) :
    compare_messages original restored =
      { countMatch := false, mismatches := [], verdict := false } := by
  simp [compare_messages, h]

/-- Witness for C2 at a concrete pair of collections of lengths 2 and 1. -/
theorem compare_messages_count_short_circuit_witness :
    compare_messages [msgA, msgB] [msgA] =
      { countMatch := false, mismatches := [], verdict := false } :=
  compare_messages_count_short_circuit [msgA, msgB] [msgA] (by decide)

/-- C3 (code bug): with two records published and only one delivery
acknowledged within the flush deadline, `produce_messages` reports no
failure, `main` still runs the backup step — and, with every external
tool succeeding and the backed-up data intact, the whole pipeline runs
and the process exits 0. -/
theorem delivery_shortfall_not_fatal :
    produce_messages shortfallEnv.deliveries = 1 ∧
    main_run [msgA, msgB] shortfallEnv =
      { delivered := 1, ranBackup := true, ranDelete := true,
        ranCreate := true, ranRestore := true, ranDrain := true,
        ranCompare := true, exitCode := 0 } := by decide

/-- C5 (code bug): `run_kafka_cli_command` does classify the failed
delete sub-command as a failure, but `main` discards that boolean: with
the delete sub-command exiting 1 the pipeline still runs topic creation,
restore, drain and compare, and the process exits 0. -/
theorem topic_delete_failure_not_fatal :
    run_kafka_cli_command deleteFailEnv.deleteRes = false ∧
    main_run [msgA, msgB] deleteFailEnv =
      { delivered := 2, ranBackup := true, ranDelete := true,
        ranCreate := true, ranRestore := true, ranDrain := true,
        ranCompare := true, exitCode := 0 } := by decide

/-- C7 counterexample: at `count = 0` (and at a negative count) the
generator returns the empty record list — its codomain is a plain list
and no InvalidArgument error exists to be raised. -/
theorem generate_zero_count_returns_list :
    generate_test_messages 0 randFixed "2024-01-01T00:00:00Z" = [] ∧
    generate_test_messages (-3) randFixed "2024-01-01T00:00:00Z" = [] :=
  ⟨rfl, rfl⟩

/-- C7 (amended): for every `count ≤ 0` the generator silently returns
the empty sequence; no validation is performed. -/
theorem generate_nonpositive_returns_empty (count : Int) (h : count ≤ 0)
    (rand : Nat → String × String × Int) (ts : String) :
    generate_test_messages count rand ts = [] := by
  unfold generate_test_messages
  rw [Int.toNat_of_nonpos h]
  rfl

/-- Witness for the amended C7 at `count = -5`. -/
theorem generate_nonpositive_returns_empty_witness :
    generate_test_messages (-5) randFixed "2024-01-01T00:00:00Z" = [] :=
  generate_nonpositive_returns_empty (-5) (by decide) randFixed "2024-01-01T00:00:00Z"

/-- C9: each summary metric is marked PASS exactly when it meets its
fixed threshold (throughput ≥ 100, compression ratio ≥ 3, checkpoint
p99 ≤ 100); with `backup_mbps = 120`, `ratio = 4.2`, and
`checkpoint_p99_ms = 80` all three summary rows show PASS. -/
theorem summary_pass_markers :
    (∀ r : SummaryInput,
      (throughput_status r = "✓ PASS" ↔ 100 ≤ r.backup_mbps) ∧
      (compression_status r = "✓ PASS" ↔ 3 ≤ r.zstd_ratio) ∧
      (latency_status r = "✓ PASS" ↔ r.checkpoint_p99_ms ≤ 100)) ∧
    throughput_status { backup_mbps := 120, zstd_ratio := 21/5, checkpoint_p99_ms := 80 } = "✓ PASS" ∧
    compression_status { backup_mbps := 120, zstd_ratio := 21/5, checkpoint_p99_ms := 80 } = "✓ PASS" ∧
    latency_status { backup_mbps := 120, zstd_ratio := 21/5, checkpoint_p99_ms := 80 } = "✓ PASS" := by
  refine ⟨fun r => ⟨?_, ?_, ?_⟩, ?_, ?_, ?_⟩
  · exact check_target_true_pass_iff r.backup_mbps 100
  · exact check_target_true_pass_iff r.zstd_ratio 3
  · exact check_target_false_pass_iff r.checkpoint_p99_ms 100
  · exact (check_target_true_pass_iff 120 100).mpr (by norm_num)
  · exact (check_target_true_pass_iff (21/5) 3).mpr (by norm_num)
  · exact (check_target_false_pass_iff 80 100).mpr (by norm_num)

/-- C4 counterexample: on a hard consumer error the idle counter is not
incremented — from the initial state one hard error leaves it at 0, not
1 — and a stream of 20 consecutive hard errors with an idle threshold of
2 never fires the idle-threshold exit (the counter stays 0 and the loop
has not exited), contradicting the claimed equivalence with a benign
empty poll. -/
theorem hard_error_counterexample :
    (drainStep 100 2 initDrain (PollOutcome.hardError, 1)).empty_polls ≠
      initDrain.empty_polls + 1 ∧
    (drainRun 100 2 (List.replicate 20 (PollOutcome.hardError, 1))).empty_polls = 0 ∧
    (drainRun 100 2 (List.replicate 20 (PollOutcome.hardError, 1))).done = false := by
  decide

/-- C4 (amended): a hard consumer error is logged and skipped: the idle
counter is left unchanged (not incremented), the loop is not aborted,
and under a stream of consecutive hard errors the idle-threshold exit
can never fire — only the overall timeout can have ended the loop. -/
theorem hard_error_skips_idle_counter :
    (∀ (timeout : Int) (maxE : Nat) (s : DrainState) (d : Int),
      s.done = false → s.empty_polls < maxE → s.elapsed ≤ timeout →
      drainStep timeout maxE s (PollOutcome.hardError, d) =
        { s with elapsed := s.elapsed + d }) ∧
    (∀ (timeout : Int) (maxE : Nat), 0 < maxE → ∀ (n : Nat) (d : Int),
      (drainRun timeout maxE (List.replicate n (PollOutcome.hardError, d))).empty_polls = 0 ∧
      (drainRun timeout maxE (List.replicate n (PollOutcome.hardError, d))).messages = [] ∧
      ((drainRun timeout maxE (List.replicate n (PollOutcome.hardError, d))).done = true →
        timeout < (drainRun timeout maxE (List.replicate n (PollOutcome.hardError, d))).elapsed)) := by
  constructor
  · intro timeout maxE s d h1 h2 h3
    simp [drainStep, h1, not_le.mpr h2, not_lt.mpr h3]
  · intro timeout maxE hm n d
    exact drainFold_idle_frozen timeout maxE hm _
      (fun p hp => Or.inl (by rw [List.eq_of_mem_replicate hp]))
      initDrain rfl rfl (by intro hc; simp [initDrain] at hc)

/-- Witness for the amended C4: one hard error from the initial state,
and a stream of five hard errors with threshold 10. -/
theorem hard_error_skips_idle_counter_witness :
    (drainStep 30 10 initDrain (PollOutcome.hardError, 1) =
      { initDrain with elapsed := initDrain.elapsed + 1 }) ∧
    ((drainRun 30 10 (List.replicate 5 (PollOutcome.hardError, 1))).empty_polls = 0 ∧
     (drainRun 30 10 (List.replicate 5 (PollOutcome.hardError, 1))).messages = [] ∧
     ((drainRun 30 10 (List.replicate 5 (PollOutcome.hardError, 1))).done = true →
       (30 : Int) < (drainRun 30 10 (List.replicate 5 (PollOutcome.hardError, 1))).elapsed)) :=
  ⟨hard_error_skips_idle_counter.1 30 10 initDrain 1 rfl (by decide) (by decide),
   hard_error_skips_idle_counter.2 30 10 (by decide) 5 1⟩

/-- C10: when a poll returns a record the idle counter is reset to zero
before payload decoding is attempted — so it is reset even when decoding
fails and the record is discarded — and a stream of undecodable records
keeps the idle-threshold exit from ever firing, leaving only the overall
timeout to end the drain. -/
theorem record_resets_idle_before_decode :
    (∀ (timeout : Int) (maxE : Nat) (s : DrainState) (d : Int) (r? : Option Msg),
      s.done = false → s.empty_polls < maxE → s.elapsed ≤ timeout →
      ((drainStep timeout maxE s (PollOutcome.record r?, d)).empty_polls = 0 ∧
       (drainStep timeout maxE s (PollOutcome.record r?, d)).messages =
         s.messages ++ (r?.elim [] fun m => [m]) ∧
       (drainStep timeout maxE s (PollOutcome.record r?, d)).done = false)) ∧
    (∀ (timeout : Int) (maxE : Nat), 0 < maxE → ∀ (n : Nat) (d : Int),
      (drainRun timeout maxE (List.replicate n (PollOutcome.record none, d))).empty_polls = 0 ∧
      (drainRun timeout maxE (List.replicate n (PollOutcome.record none, d))).messages = [] ∧
      ((drainRun timeout maxE (List.replicate n (PollOutcome.record none, d))).done = true →
        timeout < (drainRun timeout maxE (List.replicate n (PollOutcome.record none, d))).elapsed)) := by
  constructor
  · intro timeout maxE s d r? h1 h2 h3
    cases r? with
    | none => simp [drainStep, h1, not_le.mpr h2, not_lt.mpr h3]
    | some m => simp [drainStep, h1, not_le.mpr h2, not_lt.mpr h3]
  · intro timeout maxE hm n d
    exact drainFold_idle_frozen timeout maxE hm _
      (fun p hp => Or.inr (by rw [List.eq_of_mem_replicate hp]))
      initDrain rfl rfl (by intro hc; simp [initDrain] at hc)

/-- Witness for C10: an undecodable record arriving after nine idle
polls resets the counter to zero and is discarded, and a stream of seven
undecodable records keeps the counter at zero. -/
theorem record_resets_idle_before_decode_witness :
    ((drainStep 30 10 drainState9 (PollOutcome.record none, 1)).empty_polls = 0 ∧
     (drainStep 30 10 drainState9 (PollOutcome.record none, 1)).messages =
       drainState9.messages ++ ((none : Option Msg).elim [] fun m => [m]) ∧
     (drainStep 30 10 drainState9 (PollOutcome.record none, 1)).done = false) ∧
    ((drainRun 30 10 (List.replicate 7 (PollOutcome.record none, 1))).empty_polls = 0 ∧
     (drainRun 30 10 (List.replicate 7 (PollOutcome.record none, 1))).messages = [] ∧
     ((drainRun 30 10 (List.replicate 7 (PollOutcome.record none, 1))).done = true →
       (30 : Int) < (drainRun 30 10 (List.replicate 7 (PollOutcome.record none, 1))).elapsed)) :=
  ⟨record_resets_idle_before_decode.1 30 10 drainState9 1 none rfl (by decide) (by decide),
   record_resets_idle_before_decode.2 30 10 (by decide) 7 1⟩

/-- C8: (i) for every sequence of poll outcomes whose polls each take at
most one poll interval, the drain's clock never passes
`overallTimeout + pollInterval`; (ii) when moreover every poll takes at
least `d > 0` and the trace is long enough that `n·d` exceeds that bound,
the loop has exited; (iii) against a topic that never yields a message,
with `idleThreshold = 10` one-second polls and `overallTimeout = 30`,
the drain returns the empty sequence and its exit condition holds at or
before the 30-second mark (in fact at 10 seconds). -/
theorem drain_terminates_within_timeout :
    (∀ (timeout pollInterval : Int) (maxE : Nat) (trace : List (PollOutcome × Int)),
      0 ≤ timeout → 0 ≤ pollInterval → (∀ p ∈ trace, p.2 ≤ pollInterval) →
      (drainRun timeout maxE trace).elapsed ≤ timeout + pollInterval) ∧
    (∀ (timeout pollInterval d : Int) (maxE : Nat) (trace : List (PollOutcome × Int)),
      0 ≤ timeout → 0 < d → d ≤ pollInterval →
      (∀ p ∈ trace, d ≤ p.2 ∧ p.2 ≤ pollInterval) →
      timeout + pollInterval < trace.length * d →
      (drainRun timeout maxE trace).done = true) ∧
    (∀ n : Nat, 10 ≤ n →
      (drainRun 30 10 (List.replicate n (PollOutcome.noMsg, 1))).messages = [] ∧
      (drainRun 30 10 (List.replicate n (PollOutcome.noMsg, 1))).elapsed ≤ 30 ∧
      exitCond 30 10 (drainRun 30 10 (List.replicate n (PollOutcome.noMsg, 1)))) := by
  refine ⟨?_, ?_, ?_⟩
  · intro timeout pollInterval maxE trace ht hpi hmem
    refine drainFold_elapsed_bound timeout pollInterval maxE trace hmem initDrain ?_
    show (0 : Int) ≤ timeout + pollInterval
    omega
  · intro timeout pollInterval d maxE trace ht hd hdpi hmem hlen
    by_contra hdone
    have hdone' : (drainRun timeout maxE trace).done = false := by simpa using hdone
    have hsum := drainFold_elapsed_of_not_done timeout maxE trace initDrain hdone'
    have hzero : initDrain.elapsed = 0 := rfl
    rw [hzero, zero_add] at hsum
    have hbound := drainFold_elapsed_bound timeout pollInterval maxE trace
      (fun p hp => (hmem p hp).2) initDrain (by show (0 : Int) ≤ timeout + pollInterval; omega)
    have hsumlb : (trace.length : Int) * d ≤ (trace.map (fun p => p.2)).sum := by
      have hall : ∀ x ∈ trace.map (fun p => p.2), d ≤ x := by
        intro x hx
        rcases List.mem_map.mp hx with ⟨p, hp, rfl⟩
        exact (hmem p hp).1
      have := List.card_nsmul_le_sum (trace.map fun p => p.2) d hall
      rwa [nsmul_eq_mul, List.length_map] at this
    rw [hsum] at hbound
    exact absurd (lt_of_lt_of_le hlen (le_trans hsumlb hbound)) (lt_irrefl _)
  · intro n hn
    obtain ⟨m, rfl⟩ : ∃ m, n = 10 + m := ⟨n - 10, by omega⟩
    have h10 : (List.replicate 10 ((PollOutcome.noMsg, (1 : Int)))).foldl (drainStep 30 10)
        initDrain =
        { messages := [], empty_polls := 10, elapsed := 10, done := false } := by decide
    simp only [drainRun, List.replicate_add, List.foldl_append, h10]
    cases m with
    | zero =>
        refine ⟨rfl, by decide, ?_⟩
        exact Or.inr (Or.inl (by decide))
    | succ k =>
        rw [List.replicate_succ, List.foldl_cons]
        have hstep : drainStep 30 10
            ({ messages := [], empty_polls := 10, elapsed := 10, done := false } : DrainState)
            (PollOutcome.noMsg, 1) =
            { messages := [], empty_polls := 10, elapsed := 10, done := true } := by decide
        rw [hstep, drainFold_of_done rfl]
        exact ⟨rfl, by decide, Or.inl rfl⟩

/-- Witness for C8: a one-poll trace stays under the 31-second bound; a
three-poll one-second trace against a one-second timeout has exited; and
the never-yielding scenario at `n = 12` returns no records with its exit
condition holding by the 10-second mark. -/
theorem drain_terminates_within_timeout_witness :
    ((drainRun 30 10 [(PollOutcome.noMsg, 1)]).elapsed ≤ 30 + 1) ∧
    ((drainRun 1 10 (List.replicate 3 (PollOutcome.noMsg, 1))).done = true) ∧
    ((drainRun 30 10 (List.replicate 12 (PollOutcome.noMsg, 1))).messages = [] ∧
     (drainRun 30 10 (List.replicate 12 (PollOutcome.noMsg, 1))).elapsed ≤ 30 ∧
     exitCond 30 10 (drainRun 30 10 (List.replicate 12 (PollOutcome.noMsg, 1)))) :=
  ⟨drain_terminates_within_timeout.1 30 1 10 [(PollOutcome.noMsg, 1)]
      (by decide) (by decide) (by decide),
   drain_terminates_within_timeout.2.1 1 1 1 10 (List.replicate 3 (PollOutcome.noMsg, 1))
      (by decide) (by decide) (by decide) (by decide) (by decide),
   drain_terminates_within_timeout.2.2 12 (by decide)⟩

/-- Reading a digit character back gives the digit. -/
theorem charVal_decDigitChar {d : Nat} (h : d < 10) : charVal (decDigitChar d) = d := by
  interval_cases d <;> decide

/-- Reading the printed digit characters back gives the digits. -/
theorem map_charVal_decReprList (n : Nat) :
    (decReprList n).map charVal =
      if n = 0 then [0] else (Nat.digits 10 n).reverse := by
  unfold decReprList
  by_cases h : n = 0
  · rw [if_pos h, if_pos h]
    decide
  · rw [if_neg h, if_neg h, List.map_map]
    have hid : ∀ a ∈ (Nat.digits 10 n).reverse, (charVal ∘ decDigitChar) a = id a :=
      fun a ha =>
        charVal_decDigitChar (Nat.digits_lt_base (by norm_num) (List.mem_reverse.mp ha))
    rw [List.map_congr_left hid, List.map_id]

/-- A run of zero digits contributes nothing. -/
theorem ofDigits_replicate_zero (k : Nat) :
    Nat.ofDigits 10 (List.replicate k 0) = 0 := by
  induction k with
  | zero => rfl
  | succ m ih =>
      rw [List.replicate_succ, Nat.ofDigits_cons, ih]

/-- Reading back is a left inverse of the zero-padded printer, so the
padding cannot collapse two distinct indices to the same key text. -/
theorem parseDigits_pad4List (n : Nat) : parseDigits (pad4List n) = n := by
  by_cases h : n = 0
  · subst h
    decide
  · unfold parseDigits pad4List
    rw [List.map_append, List.map_replicate]
    have h0 : charVal '0' = 0 := rfl
    rw [h0, map_charVal_decReprList, if_neg h, List.reverse_append, List.reverse_reverse,
        List.reverse_replicate, Nat.ofDigits_append, Nat.ofDigits_digits,
        ofDigits_replicate_zero]
    simp

/-- The padded printer `f'{i:04d}'` is injective on the loop indices. -/
theorem pad4List_injective : Function.Injective pad4List := fun a b h => by
  rw [← parseDigits_pad4List a, ← parseDigits_pad4List b, h]

/-- The padded printer as a string is injective. -/
theorem pad4_injective : Function.Injective pad4 := by
  intro a b h
  apply pad4List_injective
  have hd : (pad4 a).data = (pad4 b).data := by rw [h]
  simpa [pad4] using hd

/-- Distinct loop indices get distinct `order_id`s. -/
theorem orderKey_injective : Function.Injective orderKey := by
  intro a b h
  apply pad4_injective
  unfold orderKey at h
  have hd : "PY-ORD-".data ++ (pad4 a).data = "PY-ORD-".data ++ (pad4 b).data := by
    rw [← String.data_append, ← String.data_append, h]
  exact String.ext (List.append_cancel_left hd)

/-- C6: for every positive count the generator returns exactly that many
records, in order, and their key values are pairwise distinct (each key
is derived from the monotonically increasing loop index, independently
of the random source). -/
theorem generate_length_and_keys_nodup (count : Int) (_hpos : 0 < count)
    (rand : Nat → String × String × Int) (ts : String) :
    (generate_test_messages count rand ts).length = count.toNat ∧
    ((generate_test_messages count rand ts).map Msg.order_id).Nodup := by
  refine ⟨by simp [generate_test_messages], ?_⟩
  unfold generate_test_messages
  rw [List.map_map]
  exact (List.nodup_range' 1 count.toNat).map orderKey_injective

/-- Witness for C6 at `count = 3`. -/
theorem generate_length_and_keys_nodup_witness :
    (generate_test_messages 3 randFixed "2024-01-01T00:00:00Z").length = (3 : Int).toNat ∧
    ((generate_test_messages 3 randFixed "2024-01-01T00:00:00Z").map Msg.order_id).Nodup :=
  generate_length_and_keys_nodup 3 (by decide) randFixed "2024-01-01T00:00:00Z"

/-- The comparator's sort permutes its input. -/
theorem sortByKey_perm (l : List Msg) : (sortByKey l).Perm l :=
  List.perm_insertionSort keyLe l

/-- The comparator's sort sorts by key. -/
theorem sortByKey_sorted (l : List Msg) : List.Sorted keyLe (sortByKey l) :=
  List.sorted_insertionSort keyLe l

/-- Two lists whose key/amount projections agree pairwise produce no
mismatch entries. -/
theorem pairMismatches_of_proj_eq :
    ∀ {l m : List Msg}, l.map keyAmount = m.map keyAmount → pairMismatches l m = []
  | [], [], _ => rfl
  | [], _ :: _, h => by simp at h
  | _ :: _, [], h => by simp at h
  | a :: l, b :: m, h => by
      simp only [List.map_cons, List.cons.injEq] at h
      have hk : a.order_id = b.order_id := congrArg Prod.fst h.1
      have ha : a.amount = b.amount := congrArg Prod.snd h.1
      simp [pairMismatches, hk, ha, pairMismatches_of_proj_eq h.2]

instance : IsAntisymm (String × Int) keyAmountLt :=
  ⟨fun _ _ h₁ h₂ => absurd h₂ (lt_asymm h₁)⟩

/-- A key-sorted list whose keys are pairwise distinct projects to a
strictly key-sorted list of key/amount pairs. -/
theorem sorted_strict_of_nodup_keys {l : List Msg} (hs : List.Sorted keyLe l)
    (hn : (l.map Msg.order_id).Nodup) :
    List.Pairwise keyAmountLt (l.map keyAmount) := by
  rw [List.pairwise_map]
  have hn' : List.Pairwise (fun a b : Msg => a.order_id ≠ b.order_id) l := by
    simpa [List.Nodup, List.pairwise_map] using hn
  exact (List.Pairwise.and hs hn').imp fun h =>
    lt_of_le_of_ne h.1 fun hEq => h.2 (String.toList_inj.mp hEq)

/-- C1 counterexample: the claim fails when a key is duplicated.  The
collections `[msgA, msgC]` and `[msgC, msgA]` are permutations of each
other — every record's key and amount has its counterpart — yet the
stable key-sort leaves the equal-key records in their original relative
orders, the element-wise pairing crosses them, and the comparator
reports two amount mismatches and `verdict = false`. -/
theorem compare_messages_perm_counterexample :
    ([msgC, msgA] : List Msg).Perm [msgA, msgC] ∧
    (compare_messages [msgA, msgC] [msgC, msgA]).verdict = false ∧
    (compare_messages [msgA, msgC] [msgC, msgA]).mismatches ≠ [] := by
  decide

/-- C1 (amended): when the expected collection's keys are pairwise
distinct — the generator's invariant — and the actual collection is a
permutation of the expected one at the level of keys and amounts, the
comparator returns `verdict = true` with zero mismatches, regardless of
the order of either collection. -/
theorem compare_messages_perm_verdict (original restored : List Msg)
    (hnd : (original.map Msg.order_id).Nodup)
    (hperm : (restored.map keyAmount).Perm (original.map keyAmount)) :
    compare_messages original restored =
      { countMatch := true, mismatches := [], verdict := true } := by
  have hlen : original.length = restored.length := by
    have h1 := hperm.length_eq
    rw [List.length_map, List.length_map] at h1
    exact h1.symm
  have hkeys : (restored.map Msg.order_id).Perm (original.map Msg.order_id) := by
    have h1 := hperm.map Prod.fst
    rw [List.map_map, List.map_map] at h1
    exact h1
  have hndr : (restored.map Msg.order_id).Nodup := hkeys.nodup_iff.mpr hnd
  have hndso : ((sortByKey original).map Msg.order_id).Nodup :=
    ((sortByKey_perm original).map Msg.order_id).nodup_iff.mpr hnd
  have hndsr : ((sortByKey restored).map Msg.order_id).Nodup :=
    ((sortByKey_perm restored).map Msg.order_id).nodup_iff.mpr hndr
  have hsto := sorted_strict_of_nodup_keys (sortByKey_sorted original) hndso
  have hstr := sorted_strict_of_nodup_keys (sortByKey_sorted restored) hndsr
  have hp2 : ((sortByKey original).map keyAmount).Perm ((sortByKey restored).map keyAmount) :=
    (((sortByKey_perm original).map keyAmount).trans hperm.symm).trans
      ((sortByKey_perm restored).map keyAmount).symm
  have heq : (sortByKey original).map keyAmount = (sortByKey restored).map keyAmount :=
    List.eq_of_perm_of_sorted hp2 hsto hstr
  have hms : pairMismatches (sortByKey original) (sortByKey restored) = [] :=
    pairMismatches_of_proj_eq heq
  simp [compare_messages, hlen, hms]

/-- Witness for the amended C1: two distinct-key records drained in the
reverse order still compare equal. -/
theorem compare_messages_perm_verdict_witness :
    compare_messages [msgA, msgB] [msgB, msgA] =
      { countMatch := true, mismatches := [], verdict := true } :=
  compare_messages_perm_verdict [msgA, msgB] [msgB, msgA] (by decide) (by decide)

end Demo
